import Mathlib

/-!
Shallow embedding of `src/rust-lib/flowy-infra/src/kv/kv.rs`: a process-wide
typed key-value store backed by a SQLite table `kv_table` with primary key
`key`.  The global `KV_HOLDER : RwLock<KVStore>` is modelled by explicit state
passing of a `KVStore` value; the SQLite table contents are modelled as a list
of rows (`Db`).  Interactions with the external world that can fail are
modelled by explicit oracle parameters:

* `lockPoisoned` — whether `KV_HOLDER.read()` / `.write()` returns a
  `PoisonError` (Rust lock poisoning after a panic while held);
* `connOk` — whether `database.get_connection()` (pool checkout) succeeds;
* `execOk` — whether the diesel statement execution succeeds;
* for `init`: `rootExists` models `Path::new(root).exists()`, and the three
  `Except`-valued parameters model the results of `Database::new`,
  `database.get_connection()`, and `SqliteConnection::execute(conn, KV_SQL)`.

Rust computations can end in three ways: return a value, return an `Err`, or
panic (`expect` / `unwrap`).  `Outcome` captures all three, so theorems can
distinguish "fails with an error value" from "panics".
-/

/-- Outcome of a Rust computation: normal return, `Err` return (the error
formatted to a `String`, as `kv.rs` does with `format!`), or a panic raised by
`expect`/`unwrap`. -/
inductive Outcome (α : Type) where
  | ok : α → Outcome α
  | err : String → Outcome α
  | panicked : String → Outcome α
deriving DecidableEq, Repr

/-- True exactly when the outcome is an `Err` return. -/
def Outcome.isErr {α : Type} : Outcome α → Bool
  | Outcome.err _ => true
  | _ => false

/-- True exactly when the outcome is a panic. -/
def Outcome.isPanicked {α : Type} : Outcome α → Bool
  | Outcome.panicked _ => true
  | _ => false

/-- IEEE-754 doubles are only stored and returned by the store, never
inspected or computed with; we model an `f64` value opaquely by its 64-bit
pattern. -/
structure Float64 where
  bits : Nat
deriving DecidableEq, Repr

/-- The `KeyValue` record of kv.rs (lines 145–160): one string key and four
optional scalar fields, mapped onto the columns of `kv_table`. -/
structure KeyValue where
  key : String
  str_value : Option String
  int_value : Option Int
  float_value : Option Float64
  bool_value : Option Bool
deriving DecidableEq, Repr

/-- `KeyValue::new` (kv.rs lines 162–169): the given key with all four value
fields defaulted to `None` (`..Default::default()`). -/
def KeyValue.new (key : String) : KeyValue :=
  { key := key, str_value := none, int_value := none,
    float_value := none, bool_value := none }

/-- Contents of the SQLite table `kv_table`: a list of rows.  The primary key
makes keys unique in any table produced by the engine; queries below follow
diesel's behaviour on the list directly. -/
abbrev Db := List KeyValue

/-- `diesel::replace_into` on a table with primary key `key` (SQLite
`REPLACE INTO`): any existing row with the same key is deleted and the new row
inserted. -/
def replaceInto (db : Db) (item : KeyValue) : Db :=
  db.filter (fun r => r.key != item.key) ++ [item]

/-- The `KVStore` struct (kv.rs lines 17–19): at most one open database
handle, `None` before `init`.  The handle is identified with the table
contents it gives access to. -/
structure KVStore where
  database : Option Db
deriving DecidableEq, Repr

/-- `get_connection` (kv.rs lines 123–140).  `KV_HOLDER.read()` fails only
when the lock is poisoned, giving an `Err` return; otherwise
`store.database.as_ref().expect("KVStore is not init")` panics when the store
was never initialized, and `database.get_connection()` yields the handle or an
engine error. -/
def get_connection (store : KVStore) (lockPoisoned connOk : Bool) : Outcome Db :=
  if lockPoisoned then
    Outcome.err "KVStore get connection failed: PoisonError"
  else
    match store.database with
    | none => Outcome.panicked "KVStore is not init"
    | some db =>
        if connOk then Outcome.ok db
        else Outcome.err "EngineError: get_connection"

/-- `KVStore::set` (kv.rs lines 24–32): obtain a connection, then
`replace_into(kv_table).values(&item).execute(conn)`; any `Err` is propagated
by `?` and the affected-row count is discarded. -/
def KVStore.set (store : KVStore) (item : KeyValue)
    (lockPoisoned connOk execOk : Bool) : Outcome Unit × KVStore :=
  match get_connection store lockPoisoned connOk with
  | Outcome.err e => (Outcome.err e, store)
  | Outcome.panicked m => (Outcome.panicked m, store)
  | Outcome.ok db =>
      if execOk then
        (Outcome.ok (), KVStore.mk (some (replaceInto db item)))
      else
        (Outcome.err "EngineError: execute", store)

/-- `KVStore::get` (kv.rs lines 34–41): obtain a connection, then
`kv_table.filter(key.eq(key)).first::<KeyValue>(conn)`; diesel's `first`
returns the first matching row or `Err(NotFound)` when none matches. -/
def KVStore.get (store : KVStore) (key : String)
    (lockPoisoned connOk execOk : Bool) : Outcome KeyValue :=
  match get_connection store lockPoisoned connOk with
  | Outcome.err e => Outcome.err e
  | Outcome.panicked m => Outcome.panicked m
  | Outcome.ok db =>
      if execOk then
        match db.find? (fun r => r.key == key) with
        | some item => Outcome.ok item
        | none => Outcome.err "NotFound"
      else Outcome.err "EngineError: first"

/-- `KVStore::remove` (kv.rs lines 44–51): obtain a connection, then
`diesel::delete(kv_table.filter(key.eq(key))).execute(conn)`; the number of
affected rows is discarded, so deleting an absent key succeeds. -/
def KVStore.remove (store : KVStore) (key : String)
    (lockPoisoned connOk execOk : Bool) : Outcome Unit × KVStore :=
  match get_connection store lockPoisoned connOk with
  | Outcome.err e => (Outcome.err e, store)
  | Outcome.panicked m => (Outcome.panicked m, store)
  | Outcome.ok db =>
      if execOk then
        (Outcome.ok (), KVStore.mk (some (db.filter (fun r => r.key != key))))
      else
        (Outcome.err "EngineError: delete", store)

/-- `KVStore::init` (kv.rs lines 53–69).  If `Path::new(root).exists()` is
false it returns `Err("Init KVStore failed. ... not exists")` before touching
the engine.  Otherwise `Database::new(..).unwrap()`,
`database.get_connection().unwrap()` and
`SqliteConnection::execute(conn, KV_SQL).unwrap()` each PANIC on failure
(`unwrap`, not `?`).  Finally `KV_HOLDER.write()` returns an `Err` when the
lock is poisoned; on success the handle slot is overwritten. -/
def KVStore.init (store : KVStore) (root : String) (rootExists : Bool)
    (openResult : Except String Db) (connResult : Except String Unit)
    (execResult : Except String Unit) (lockPoisoned : Bool) :
    Outcome Unit × KVStore :=
  if !rootExists then
    (Outcome.err ("Init KVStore failed. " ++ root ++ " not exists"), store)
  else
    match openResult with
    | Except.error e =>
        (Outcome.panicked ("called Result::unwrap() on an Err value: " ++ e), store)
    | Except.ok db =>
        match connResult with
        | Except.error e =>
            (Outcome.panicked ("called Result::unwrap() on an Err value: " ++ e), store)
        | Except.ok _ =>
            match execResult with
            | Except.error e =>
                (Outcome.panicked ("called Result::unwrap() on an Err value: " ++ e), store)
            | Except.ok _ =>
                if lockPoisoned then
                  (Outcome.err "KVStore write failed: PoisonError", store)
                else
                  (Outcome.ok (), KVStore.mk (some db))

/-- `set_str` from `impl_set_func!` (kv.rs lines 89–105, 107): build
`KeyValue::new(key)` with `str_value = Some(value)`, call `KVStore::set`; an
`Err` is logged and discarded (the function returns `()` normally), a panic
propagates. -/
def KVStore.set_str (store : KVStore) (key value : String)
    (lockPoisoned connOk execOk : Bool) : Outcome Unit × KVStore :=
  let item := { KeyValue.new key with str_value := some value }
  match KVStore.set store item lockPoisoned connOk execOk with
  | (Outcome.panicked m, s) => (Outcome.panicked m, s)
  | (_, s) => (Outcome.ok (), s)

/-- `set_int` from `impl_set_func!` (kv.rs line 111). -/
def KVStore.set_int (store : KVStore) (key : String) (value : Int)
    (lockPoisoned connOk execOk : Bool) : Outcome Unit × KVStore :=
  let item := { KeyValue.new key with int_value := some value }
  match KVStore.set store item lockPoisoned connOk execOk with
  | (Outcome.panicked m, s) => (Outcome.panicked m, s)
  | (_, s) => (Outcome.ok (), s)

/-- `set_float` from `impl_set_func!` (kv.rs line 113). -/
def KVStore.set_float (store : KVStore) (key : String) (value : Float64)
    (lockPoisoned connOk execOk : Bool) : Outcome Unit × KVStore :=
  let item := { KeyValue.new key with float_value := some value }
  match KVStore.set store item lockPoisoned connOk execOk with
  | (Outcome.panicked m, s) => (Outcome.panicked m, s)
  | (_, s) => (Outcome.ok (), s)

/-- `set_bool` from `impl_set_func!` (kv.rs line 109). -/
def KVStore.set_bool (store : KVStore) (key : String) (value : Bool)
    (lockPoisoned connOk execOk : Bool) : Outcome Unit × KVStore :=
  let item := { KeyValue.new key with bool_value := some value }
  match KVStore.set store item lockPoisoned connOk execOk with
  | (Outcome.panicked m, s) => (Outcome.panicked m, s)
  | (_, s) => (Outcome.ok (), s)

/-- `get_str` from `impl_get_func!` (kv.rs lines 72–87, 115): on
`Ok(item)` return `item.str_value`, on `Err(_)` return `None`; a panic inside
`KVStore::get` propagates. -/
def KVStore.get_str (store : KVStore) (key : String)
    (lockPoisoned connOk execOk : Bool) : Outcome (Option String) :=
  match KVStore.get store key lockPoisoned connOk execOk with
  | Outcome.ok item => Outcome.ok item.str_value
  | Outcome.err _ => Outcome.ok none
  | Outcome.panicked m => Outcome.panicked m

/-- `get_int` from `impl_get_func!` (kv.rs line 117). -/
def KVStore.get_int (store : KVStore) (key : String)
    (lockPoisoned connOk execOk : Bool) : Outcome (Option Int) :=
  match KVStore.get store key lockPoisoned connOk execOk with
  | Outcome.ok item => Outcome.ok item.int_value
  | Outcome.err _ => Outcome.ok none
  | Outcome.panicked m => Outcome.panicked m

/-- `get_float` from `impl_get_func!` (kv.rs line 119). -/
def KVStore.get_float (store : KVStore) (key : String)
    (lockPoisoned connOk execOk : Bool) : Outcome (Option Float64) :=
  match KVStore.get store key lockPoisoned connOk execOk with
  | Outcome.ok item => Outcome.ok item.float_value
  | Outcome.err _ => Outcome.ok none
  | Outcome.panicked m => Outcome.panicked m

/-- `get_bool` from `impl_get_func!` (kv.rs line 121). -/
def KVStore.get_bool (store : KVStore) (key : String)
    (lockPoisoned connOk execOk : Bool) : Outcome (Option Bool) :=
  match KVStore.get store key lockPoisoned connOk execOk with
  | Outcome.ok item => Outcome.ok item.bool_value
  | Outcome.err _ => Outcome.ok none
  | Outcome.panicked m => Outcome.panicked m

/-- Helper: filtering out all rows with key `k` leaves nothing for `find?`
with key `k` to find. -/
theorem find?_filter_key_ne (db : Db) (k : String) :
    (db.filter (fun r => r.key != k)).find? (fun r => r.key == k) = none := by
  induction db with
  | nil => rfl
  | cons a t ih =>
      by_cases h : a.key = k
      · simp [List.filter_cons, h, ih]
      · simp [List.filter_cons, h, List.find?_cons, ih]

/-- Helper: after `replaceInto db item`, looking up `item`'s key finds exactly
`item`. -/
theorem find?_replaceInto (db : Db) (item : KeyValue) (k : String)
    (h : item.key = k) :
    (replaceInto db item).find? (fun r => r.key == k) = some item := by
  unfold replaceInto
  rw [← h, List.find?_append, find?_filter_key_ne]
  simp [List.find?_cons]

/-- Claim C1, counterexample: with the store uninitialized (and the lock not
poisoned), `get`, `set` and `remove` all PANIC with "KVStore is not init"
(via `expect` in `get_connection`); none of them returns an error value, so
the claim "fails by returning an Uninitialized error ... never panics" is
false. -/
theorem c1_counterexample :
    KVStore.get (KVStore.mk none) "k" false true true
        = Outcome.panicked "KVStore is not init" ∧
    (KVStore.get (KVStore.mk none) "k" false true true).isErr = false ∧
    KVStore.set (KVStore.mk none) (KeyValue.new "k") false true true
        = (Outcome.panicked "KVStore is not init", KVStore.mk none) ∧
    (KVStore.set (KVStore.mk none) (KeyValue.new "k") false true true).1.isErr
        = false ∧
    KVStore.remove (KVStore.mk none) "k" false true true
        = (Outcome.panicked "KVStore is not init", KVStore.mk none) ∧
    (KVStore.remove (KVStore.mk none) "k" false true true).1.isErr = false := by
  decide

/-- Claim C1, amended: every call to `set`, `get` or `remove` made before
`init` has succeeded (lock not poisoned) panics with "KVStore is not init" —
it does not return an error value and does not silently succeed; the state is
left unchanged. -/
theorem c1_amended_pre_init_ops_panic (item : KeyValue) (k : String)
    (connOk execOk : Bool) :
    KVStore.set (KVStore.mk none) item false connOk execOk
        = (Outcome.panicked "KVStore is not init", KVStore.mk none) ∧
    KVStore.get (KVStore.mk none) k false connOk execOk
        = Outcome.panicked "KVStore is not init" ∧
    KVStore.remove (KVStore.mk none) k false connOk execOk
        = (Outcome.panicked "KVStore is not init", KVStore.mk none) := by
  refine ⟨rfl, rfl, rfl⟩

/-- Claim C2 (confirmed): round-trip — on an initialized store, after
`set_T(k, v)` (engine calls succeeding), `get_T(k)` returns `Some v`, for each
of the four scalar types. -/
theorem c2_roundtrip (db : Db) (k s : String) (n : Int) (f : Float64)
    (b : Bool) :
    KVStore.get_str ((KVStore.set_str (KVStore.mk (some db)) k s
        false true true).2) k false true true = Outcome.ok (some s) ∧
    KVStore.get_int ((KVStore.set_int (KVStore.mk (some db)) k n
        false true true).2) k false true true = Outcome.ok (some n) ∧
    KVStore.get_float ((KVStore.set_float (KVStore.mk (some db)) k f
        false true true).2) k false true true = Outcome.ok (some f) ∧
    KVStore.get_bool ((KVStore.set_bool (KVStore.mk (some db)) k b
        false true true).2) k false true true = Outcome.ok (some b) := by
  refine ⟨?_, ?_, ?_, ?_⟩
  · have h := find?_replaceInto db { KeyValue.new k with str_value := some s } k rfl
    simp [KVStore.set_str, KVStore.set, KVStore.get_str, KVStore.get,
      get_connection, h]
  · have h := find?_replaceInto db { KeyValue.new k with int_value := some n } k rfl
    simp [KVStore.set_int, KVStore.set, KVStore.get_int, KVStore.get,
      get_connection, h]
  · have h := find?_replaceInto db { KeyValue.new k with float_value := some f } k rfl
    simp [KVStore.set_float, KVStore.set, KVStore.get_float, KVStore.get,
      get_connection, h]
  · have h := find?_replaceInto db { KeyValue.new k with bool_value := some b } k rfl
    simp [KVStore.set_bool, KVStore.set, KVStore.get_bool, KVStore.get,
      get_connection, h]

/-- Claim C3 (confirmed): replace, not merge — setting key `k` to a record
with only `str_value = Some a` and then to a record with only
`int_value = Some b` leaves the stored row equal to the second record, whose
`str_value` is `None` and `int_value` is `Some b`: the upsert fully replaces
all fields. -/
theorem c3_replace_not_merge (db : Db) (k a : String) (b : Int) :
    KVStore.get ((KVStore.set ((KVStore.set (KVStore.mk (some db))
          { KeyValue.new k with str_value := some a } false true true).2)
          { KeyValue.new k with int_value := some b } false true true).2)
        k false true true
      = Outcome.ok { KeyValue.new k with int_value := some b } ∧
    ({ KeyValue.new k with int_value := some b } : KeyValue).str_value
      = none ∧
    ({ KeyValue.new k with int_value := some b } : KeyValue).int_value
      = some b := by
  refine ⟨?_, rfl, rfl⟩
  have h := find?_replaceInto
    (replaceInto db { KeyValue.new k with str_value := some a })
    { KeyValue.new k with int_value := some b } k rfl
  simp [KVStore.set, KVStore.get, get_connection, h]

/-- Claim C4, counterexample: when the database open fails, `init` PANICS
(`Database::new(..).unwrap()`) instead of returning an error result — the
outcome at this concrete input is a panic and not an `Err`. -/
theorem c4_counterexample :
    KVStore.init (KVStore.mk none) "/data" true (Except.error "open failed")
        (Except.ok ()) (Except.ok ()) false
      = (Outcome.panicked
          "called Result::unwrap() on an Err value: open failed",
         KVStore.mk none) ∧
    (KVStore.init (KVStore.mk none) "/data" true (Except.error "open failed")
        (Except.ok ()) (Except.ok ()) false).1.isErr = false := by
  decide

/-- Claim C4, amended: for every root path (that exists), if the database
cannot be opened, the initial connection checkout fails, or the
schema-creation statement fails, `init` PANICS via `unwrap` (propagating the
engine error message in the panic) rather than returning an error result; the
store state is left unchanged. -/
theorem c4_amended_init_panics_on_engine_failure (store : KVStore)
    (root e : String) (db : Db) (c x : Except String Unit) (lp : Bool) :
    KVStore.init store root true (Except.error e) c x lp
      = (Outcome.panicked ("called Result::unwrap() on an Err value: " ++ e),
         store) ∧
    KVStore.init store root true (Except.ok db) (Except.error e) x lp
      = (Outcome.panicked ("called Result::unwrap() on an Err value: " ++ e),
         store) ∧
    KVStore.init store root true (Except.ok db) (Except.ok ())
        (Except.error e) lp
      = (Outcome.panicked ("called Result::unwrap() on an Err value: " ++ e),
         store) :=
  ⟨rfl, rfl, rfl⟩

/-- Claim C5 (confirmed): when the root path does not exist, `init` returns
the "not exists" error (the code's NotFound condition) and the store is
unchanged; the result is the same for every possible engine response
(`o`, `c`, `x` universally quantified), so no database open, connection
checkout or schema execution influences the outcome. -/
theorem c5_init_missing_root (store : KVStore) (root : String)
    (o : Except String Db) (c x : Except String Unit) (lp : Bool) :
    KVStore.init store root false o c x lp
      = (Outcome.err ("Init KVStore failed. " ++ root ++ " not exists"),
         store) :=
  rfl

/-- Claim C6, counterexample: with the store uninitialized (lock not
poisoned), `get_str` PANICS with "KVStore is not init" — it does not return
"no value" — so "returns None whenever the underlying get fails for any
reason (... store uninitialized ...)" is false. -/
theorem c6_counterexample :
    KVStore.get_str (KVStore.mk none) "k" false true true
        = Outcome.panicked "KVStore is not init" ∧
    KVStore.get_str (KVStore.mk none) "k" false true true
        ≠ Outcome.ok none := by
  decide

/-- Claim C6, amended: `get_T(k)` returns `None` whenever the underlying
`get` returns an error value (key absent / NotFound, connection or engine
error, poisoned lock), and also when `get` succeeds but the stored record's
T-typed field is absent; for any key not present in the table, every `get_T`
returns `None`. However, when the store is uninitialized (lock not poisoned),
`get_T` panics rather than returning `None`. -/
theorem c6_amended_getT_none_on_err (stE : KVStore) (kE : String)
    (lpE coE eoE : Bool) (m : String)
    (stO : KVStore) (kO : String) (lpO coO eoO : Bool) (item : KeyValue)
    (db : Db) (kN : String) (kU : String) (coU eoU : Bool) :
    (KVStore.get stE kE lpE coE eoE = Outcome.err m →
        KVStore.get_str stE kE lpE coE eoE = Outcome.ok none ∧
        KVStore.get_int stE kE lpE coE eoE = Outcome.ok none ∧
        KVStore.get_float stE kE lpE coE eoE = Outcome.ok none ∧
        KVStore.get_bool stE kE lpE coE eoE = Outcome.ok none) ∧
    (KVStore.get stO kO lpO coO eoO = Outcome.ok item →
        (item.str_value = none →
            KVStore.get_str stO kO lpO coO eoO = Outcome.ok none) ∧
        (item.int_value = none →
            KVStore.get_int stO kO lpO coO eoO = Outcome.ok none) ∧
        (item.float_value = none →
            KVStore.get_float stO kO lpO coO eoO = Outcome.ok none) ∧
        (item.bool_value = none →
            KVStore.get_bool stO kO lpO coO eoO = Outcome.ok none)) ∧
    (db.find? (fun r => r.key == kN) = none →
        KVStore.get_str (KVStore.mk (some db)) kN false true true
            = Outcome.ok none ∧
        KVStore.get_int (KVStore.mk (some db)) kN false true true
            = Outcome.ok none ∧
        KVStore.get_float (KVStore.mk (some db)) kN false true true
            = Outcome.ok none ∧
        KVStore.get_bool (KVStore.mk (some db)) kN false true true
            = Outcome.ok none) ∧
    KVStore.get_str (KVStore.mk none) kU false coU eoU
        = Outcome.panicked "KVStore is not init" := by
  refine ⟨?_, ?_, ?_, rfl⟩
  · intro h
    refine ⟨?_, ?_, ?_, ?_⟩ <;>
      simp [KVStore.get_str, KVStore.get_int, KVStore.get_float,
        KVStore.get_bool, h]
  · intro h
    refine ⟨fun h2 => ?_, fun h2 => ?_, fun h2 => ?_, fun h2 => ?_⟩ <;>
      simp [KVStore.get_str, KVStore.get_int, KVStore.get_float,
        KVStore.get_bool, h, h2]
  · intro h
    refine ⟨?_, ?_, ?_, ?_⟩ <;>
      simp [KVStore.get_str, KVStore.get_int, KVStore.get_float,
        KVStore.get_bool, KVStore.get, get_connection, h]

/-- Witness for C6's amended theorem: the poisoned-lock error case, the
wrong-type-stored case, the never-written-key case, and the uninitialized
panic case, each at concrete inputs. -/
theorem c6_witness :
    KVStore.get_str (KVStore.mk (some [])) "k" true true true
        = Outcome.ok none ∧
    KVStore.get_int (KVStore.mk (some [KeyValue.new "a"])) "a" false true true
        = Outcome.ok none ∧
    KVStore.get_bool (KVStore.mk (some [])) "b" false true true
        = Outcome.ok none ∧
    KVStore.get_str (KVStore.mk none) "u" false true true
        = Outcome.panicked "KVStore is not init" := by
  have h := c6_amended_getT_none_on_err (KVStore.mk (some [])) "k"
    true true true "KVStore get connection failed: PoisonError"
    (KVStore.mk (some [KeyValue.new "a"])) "a" false true true
    (KeyValue.new "a") [] "b" "u" true true
  exact ⟨(h.1 (by decide)).1, (h.2.1 (by decide)).2.1 (by decide),
    (h.2.2.1 (by decide)).2.2.2, h.2.2.2⟩

/-- Claim C7 (confirmed): each `set_T(k, v)` builds exactly the record with
key `k`, the T-typed field `Some v` and the three other fields `None`
(first four conjuncts), and hands it to `set`; when that `set` returns an
error, `set_T` returns normally with the same state (error swallowed after
logging), and when `set` succeeds, `set_T` returns normally with `set`'s
state. -/
theorem c7_setT_record_shape_and_swallow
    (k vS : String) (vI : Int) (vF : Float64) (vB : Bool)
    (stE : KVStore) (lpE coE eoE : Bool) (m : String) (sE : KVStore)
    (stO : KVStore) (lpO coO eoO : Bool) (tS tI tF tB : KVStore) :
    ({ KeyValue.new k with str_value := some vS } : KeyValue)
        = KeyValue.mk k (some vS) none none none ∧
    ({ KeyValue.new k with int_value := some vI } : KeyValue)
        = KeyValue.mk k none (some vI) none none ∧
    ({ KeyValue.new k with float_value := some vF } : KeyValue)
        = KeyValue.mk k none none (some vF) none ∧
    ({ KeyValue.new k with bool_value := some vB } : KeyValue)
        = KeyValue.mk k none none none (some vB) ∧
    (KVStore.set stE { KeyValue.new k with str_value := some vS } lpE coE eoE
          = (Outcome.err m, sE) →
        KVStore.set_str stE k vS lpE coE eoE = (Outcome.ok (), sE)) ∧
    (KVStore.set stE { KeyValue.new k with int_value := some vI } lpE coE eoE
          = (Outcome.err m, sE) →
        KVStore.set_int stE k vI lpE coE eoE = (Outcome.ok (), sE)) ∧
    (KVStore.set stE { KeyValue.new k with float_value := some vF } lpE coE eoE
          = (Outcome.err m, sE) →
        KVStore.set_float stE k vF lpE coE eoE = (Outcome.ok (), sE)) ∧
    (KVStore.set stE { KeyValue.new k with bool_value := some vB } lpE coE eoE
          = (Outcome.err m, sE) →
        KVStore.set_bool stE k vB lpE coE eoE = (Outcome.ok (), sE)) ∧
    (KVStore.set stO { KeyValue.new k with str_value := some vS } lpO coO eoO
          = (Outcome.ok (), tS) →
        KVStore.set_str stO k vS lpO coO eoO = (Outcome.ok (), tS)) ∧
    (KVStore.set stO { KeyValue.new k with int_value := some vI } lpO coO eoO
          = (Outcome.ok (), tI) →
        KVStore.set_int stO k vI lpO coO eoO = (Outcome.ok (), tI)) ∧
    (KVStore.set stO { KeyValue.new k with float_value := some vF } lpO coO eoO
          = (Outcome.ok (), tF) →
        KVStore.set_float stO k vF lpO coO eoO = (Outcome.ok (), tF)) ∧
    (KVStore.set stO { KeyValue.new k with bool_value := some vB } lpO coO eoO
          = (Outcome.ok (), tB) →
        KVStore.set_bool stO k vB lpO coO eoO = (Outcome.ok (), tB)) := by
  refine ⟨rfl, rfl, rfl, rfl, ?_, ?_, ?_, ?_, ?_, ?_, ?_, ?_⟩ <;>
    intro h <;>
    simp [KVStore.set_str, KVStore.set_int, KVStore.set_float,
      KVStore.set_bool, h]

/-- Witness for C7's theorem: the error-swallowing case at a poisoned lock
and the success case on an initialized store, at concrete inputs. -/
theorem c7_witness :
    KVStore.set_str (KVStore.mk (some [])) "w" "v" true true true
        = (Outcome.ok (), KVStore.mk (some [])) ∧
    KVStore.set_int (KVStore.mk (some [])) "w" 3 true true true
        = (Outcome.ok (), KVStore.mk (some [])) ∧
    KVStore.set_float (KVStore.mk (some [])) "w" (Float64.mk 5) true true true
        = (Outcome.ok (), KVStore.mk (some [])) ∧
    KVStore.set_bool (KVStore.mk (some [])) "w" true true true true
        = (Outcome.ok (), KVStore.mk (some [])) ∧
    KVStore.set_str (KVStore.mk (some [])) "w" "v" false true true
        = (Outcome.ok (),
           KVStore.mk (some [KeyValue.mk "w" (some "v") none none none])) ∧
    KVStore.set_bool (KVStore.mk (some [])) "w" true false true true
        = (Outcome.ok (),
           KVStore.mk (some [KeyValue.mk "w" none none none (some true)])) := by
  have h := c7_setT_record_shape_and_swallow "w" "v" 3 (Float64.mk 5) true
    (KVStore.mk (some [])) true true true
    "KVStore get connection failed: PoisonError" (KVStore.mk (some []))
    (KVStore.mk (some [])) false true true
    (KVStore.mk (some [KeyValue.mk "w" (some "v") none none none]))
    (KVStore.mk (some [KeyValue.mk "w" none (some 3) none none]))
    (KVStore.mk (some [KeyValue.mk "w" none none (some (Float64.mk 5)) none]))
    (KVStore.mk (some [KeyValue.mk "w" none none none (some true)]))
  obtain ⟨-, -, -, -, hES, hEI, hEF, hEB, hOS, -, -, hOB⟩ := h
  exact ⟨hES (by decide), hEI (by decide), hEF (by decide), hEB (by decide),
    hOS (by decide), hOB (by decide)⟩

/-- Claim C8 (confirmed): on an initialized store, `remove(k)` for a key with
no matching row returns success and leaves the table unchanged —
zero rows affected is success, not an error. -/
theorem c8_remove_absent_key_ok (db : Db) (k : String)
    (h : db.find? (fun r => r.key == k) = none) :
    KVStore.remove (KVStore.mk (some db)) k false true true
      = (Outcome.ok (), KVStore.mk (some db)) := by
  have hfilter : db.filter (fun r => r.key != k) = db := by
    rw [List.filter_eq_self]
    intro a ha
    have hne := List.find?_eq_none.mp h a ha
    simpa using hne
  simp [KVStore.remove, get_connection, hfilter]

/-- Witness for C8's theorem: removing key "a" from an empty table succeeds. -/
theorem c8_witness :
    ([] : Db).find? (fun r => r.key == "a") = none ∧
    KVStore.remove (KVStore.mk (some [])) "a" false true true
      = (Outcome.ok (), KVStore.mk (some [])) :=
  ⟨rfl, c8_remove_absent_key_ok [] "a" rfl⟩

/-- Claim C9, counterexample: `KeyValue::new("")` has the empty string as its
key, and `set` accepts and stores that record — the empty-key record is
persisted, so "every persisted Record has a non-empty key" is false. -/
theorem c9_counterexample :
    (KeyValue.new "").key = "" ∧
    ("" : String).isEmpty = true ∧
    KVStore.set (KVStore.mk (some [])) (KeyValue.new "") false true true
      = (Outcome.ok (), KVStore.mk (some [KeyValue.new ""])) := by
  decide

/-- Claim C9, amended: `set` performs no key validation — on an initialized
store it accepts every record and stores it with exactly the key the record
carries (including the empty string), and `KeyValue::new` propagates its
argument key verbatim; non-emptiness of keys is a convention, not an enforced
invariant. -/
theorem c9_amended_set_accepts_any_key (db : Db) (item : KeyValue)
    (k : String) :
    KVStore.set (KVStore.mk (some db)) item false true true
      = (Outcome.ok (), KVStore.mk (some (replaceInto db item))) ∧
    (KeyValue.new k).key = k :=
  ⟨rfl, rfl⟩

/-- Claim C10 (confirmed): when the root path does not exist, `init` returns
an error and the store's handle slot is exactly the prior state; consequently
every subsequent `get`/`set`/`remove` behaves exactly as it would have before
the failed `init`. -/
theorem c10_failed_init_preserves_state (store : KVStore) (root : String)
    (o : Except String Db) (c x : Except String Unit) (lp : Bool)
    (k : String) (item : KeyValue) (lp2 co eo : Bool) :
    (KVStore.init store root false o c x lp).2 = store ∧
    (KVStore.init store root false o c x lp).1.isErr = true ∧
    KVStore.get (KVStore.init store root false o c x lp).2 k lp2 co eo
      = KVStore.get store k lp2 co eo ∧
    KVStore.set (KVStore.init store root false o c x lp).2 item lp2 co eo
      = KVStore.set store item lp2 co eo ∧
    KVStore.remove (KVStore.init store root false o c x lp).2 k lp2 co eo
      = KVStore.remove store k lp2 co eo :=
  ⟨rfl, rfl, rfl, rfl, rfl⟩
